import Mathlib

/-!
Verification of the domain layer of the Personal-Banking-App repository
(`personal_banking_app/models.py` and the alert evaluator in
`personal_banking_app/gui.py`), via a shallow embedding in Lean.

Conventions of the embedding:
* SQLite tables are lists of row structures; `REAL` amounts are modelled
  as rationals; `AUTOINCREMENT` ids are `Nat` parameters supplied by the
  caller where an insert needs a fresh id.
* `TEXT` dates in the `Expenses` table are kept as strings (the code only
  ever compares them with SQL `>=`, which is lexicographic on `TEXT`);
  `TEXT` dates in `RecurringPayments` are represented by their parsed
  `Date` value, since the code always round-trips them through
  `strptime`/`strftime` with the fixed format `%Y-%m-%d`.
* Functions that can raise (`ValueError`, `sqlite3.IntegrityError`,
  `AttributeError`) return `Except String _` or `Option _`; the embedded
  error string is the message the Python code raises.
-/

/-- A calendar date as held by Python's `datetime.date`: a year, month and
day.  Validity (month in 1..12, day in 1..days-in-month) is a separate
predicate, mirroring the check `datetime.__new__` performs. -/
structure Date where
  year : Nat
  month : Nat
  day : Nat
deriving DecidableEq, Repr

/-- Gregorian leap-year rule, as used by `datetime` / `calendar.isleap`. -/
def isLeapYear (y : Nat) : Bool :=
  (y % 4 == 0 && y % 100 != 0) || (y % 400 == 0)

/-- Number of days in a month, as `datetime` validates against. -/
def daysInMonth (y m : Nat) : Nat :=
  if m == 2 then (if isLeapYear y then 29 else 28)
  else if m == 4 || m == 6 || m == 9 || m == 11 then 30
  else 31

/-- The validation `datetime(year, month, day)` performs on its month and
day arguments. -/
def Date.valid (d : Date) : Bool :=
  1 ≤ d.month && d.month ≤ 12 && 1 ≤ d.day && d.day ≤ daysInMonth d.year d.month

/-- `datetime(year, month, day).date()`: returns the date when the
arguments are valid, and raises `ValueError` (here: `none`) otherwise. -/
def mkDate (y m d : Nat) : Option Date :=
  if Date.valid ⟨y, m, d⟩ then some ⟨y, m, d⟩ else none

/-- Advance a valid date by one day (month and year roll over), the
primitive out of which `timedelta` addition is built. -/
def Date.next (d : Date) : Date :=
  if d.day < daysInMonth d.year d.month then ⟨d.year, d.month, d.day + 1⟩
  else if d.month < 12 then ⟨d.year, d.month + 1, 1⟩
  else ⟨d.year + 1, 1, 1⟩

/-- `date + timedelta(days := n)` for a nonnegative `n`. -/
def Date.addDays (d : Date) : Nat → Date
  | 0 => d
  | n + 1 => (Date.addDays d n).next

/-- `models.calculate_next_due_date(current_due_date, frequency)`.

The Python body:
* `"Weekly"` → `current_due_date + timedelta(weeks=1)`;
* `"Monthly"` → `year += month // 12`, `month = month % 12 + 1`,
  `day = min(day, 28)`, then `datetime(year, month, day)`;
* `"Yearly"` → `datetime(year + 1, month, day)` — note this construction
  is validated and raises `ValueError` when the day does not exist in the
  target year (Feb 29 → year + 1);
* anything else → the same computation as the `"Monthly"` branch.

`none` is the embedded image of the `ValueError` that `datetime` raises
on an invalid construction. -/
def calculate_next_due_date (current_due_date : Date) (frequency : String) :
    Option Date :=
  if frequency == "Weekly" then
    some (current_due_date.addDays 7)
  else if frequency == "Monthly" then
    let month := current_due_date.month
    let year := current_due_date.year + month / 12
    let month := month % 12 + 1
    let day := min current_due_date.day 28
    mkDate year month day
  else if frequency == "Yearly" then
    mkDate (current_due_date.year + 1) current_due_date.month
      current_due_date.day
  else
    let month := current_due_date.month
    let year := current_due_date.year + month / 12
    let month := month % 12 + 1
    let day := min current_due_date.day 28
    mkDate year month day

/-- Bytewise lexicographic comparison of character lists, the recursion
underlying SQLite's BINARY collation. -/
def strLeAux : List Char → List Char → Bool
  | [], _ => true
  | _ :: _, [] => false
  | c :: cs, d :: ds =>
    if c < d then true
    else if d < c then false
    else strLeAux cs ds

/-- SQL `a <= b` on `TEXT` values under SQLite's default BINARY collation:
bytewise lexicographic order, which on the ASCII `YYYY-MM-DD` strings this
program stores is plain lexicographic order on the characters. -/
def strLe (a b : String) : Bool := strLeAux a.data b.data

/-- Days in the months strictly before month `m` of year `y`. -/
def daysBeforeMonth (y m : Nat) : Nat :=
  ((List.range (m - 1)).map (fun i => daysInMonth y (i + 1))).sum

/-- `datetime.date.toordinal()`: day 1 is 0001-01-01.  The evaluator only
uses differences of ordinals (`(due_date - today).days`). -/
def Date.toOrdinal (d : Date) : Int :=
  365 * ((d.year : Int) - 1) + ((d.year : Int) - 1) / 4
    - ((d.year : Int) - 1) / 100 + ((d.year : Int) - 1) / 400
    + (daysBeforeMonth d.year d.month : Int) + (d.day : Int)

/-- Zero-padding to two digits, as `%m` / `%d` of `strftime` produce. -/
def pad2 (n : Nat) : String := if n < 10 then "0" ++ toString n else toString n

/-- `strftime("%Y-%m")` of a date. -/
def Date.monthStr (d : Date) : String := toString d.year ++ "-" ++ pad2 d.month

/-- `strftime("%Y-%m-%d")` of a date. -/
def Date.isoStr (d : Date) : String := d.monthStr ++ "-" ++ pad2 d.day

/-- A row of the `Expenses` table created by `init_db`:
`(id INTEGER PRIMARY KEY, date TEXT, category TEXT, amount REAL,
user_id INTEGER NOT NULL)`.  `REAL` amounts are idealized as rationals. -/
structure ExpenseRow where
  id : Nat
  date : String
  category : String
  amount : ℚ
  user_id : Nat
deriving DecidableEq

/-- `Expense.get_all(user_id)`:
`SELECT id, date, category, amount FROM Expenses WHERE user_id = ?
ORDER BY date DESC`.  The sort realizes `ORDER BY` on the `TEXT` column
(descending BINARY-collation order); SQLite leaves the order of ties
unspecified. -/
def Expense.get_all (db : List ExpenseRow) (user_id : Nat) : List ExpenseRow :=
  List.insertionSort (fun a b => strLe b.date a.date)
    (db.filter (fun e => e.user_id == user_id))

/-- `Expense.get_spending_since(start_date, user_id)`:
`SELECT SUM(amount) FROM Expenses WHERE date >= ? AND user_id = ?`,
then `return result[0] if result[0] else 0.0`.  SQL `SUM` over zero rows
is `NULL` (embedded as `none`); the Python truthiness test maps both
`None` and `0.0` to `0.0`. -/
def Expense.get_spending_since (db : List ExpenseRow) (start_date : String)
    (user_id : Nat) : ℚ :=
  let rows := db.filter (fun e => strLe start_date e.date && e.user_id == user_id)
  let sumRow : Option ℚ :=
    if rows.isEmpty then none else some ((rows.map (fun e => e.amount)).sum)
  match sumRow with
  | some v => if v == 0 then 0 else v
  | none => 0

/-- `Expense.update(expense_id, new_date, new_category, new_amount, user_id)`:
first `SELECT id FROM Expenses WHERE id = ? AND user_id = ?`; if no row is
fetched, raise `ValueError`; otherwise
`UPDATE Expenses SET date = ?, category = ?, amount = ?
WHERE id = ? AND user_id = ?`. -/
def Expense.update (db : List ExpenseRow) (expense_id : Nat)
    (new_date new_category : String) (new_amount : ℚ) (user_id : Nat) :
    Except String (List ExpenseRow) :=
  match db.find? (fun e => e.id == expense_id && e.user_id == user_id) with
  | none => Except.error "Expense not found or does not belong to the user."
  | some _ =>
    Except.ok (db.map (fun e =>
      if e.id == expense_id && e.user_id == user_id then
        { e with date := new_date, category := new_category, amount := new_amount }
      else e))

/-- `Expense.delete(expense_id, user_id)`: the same ownership check as
`update`, then `DELETE FROM Expenses WHERE id = ? AND user_id = ?`. -/
def Expense.delete (db : List ExpenseRow) (expense_id : Nat) (user_id : Nat) :
    Except String (List ExpenseRow) :=
  match db.find? (fun e => e.id == expense_id && e.user_id == user_id) with
  | none => Except.error "Expense not found or does not belong to the user."
  | some _ =>
    Except.ok (db.filter (fun e => !(e.id == expense_id && e.user_id == user_id)))

/-- A row of the `Categories` table created by `init_db`:
`(id INTEGER PRIMARY KEY, name TEXT NOT NULL, user_id INTEGER NOT NULL)`.
Note the schema has no uniqueness constraint on `name`, and `user_id` has
no default value. -/
structure CategoryRow where
  id : Nat
  name : String
  user_id : Nat
deriving DecidableEq

/-- `Category.add(name)` from models.py.  The method takes no `user_id`
parameter.  `if not name` raises the empty-name `ValueError`.  Otherwise
it runs `INSERT INTO Categories (name) VALUES (?)`, which supplies no
`user_id`; since `init_db` declares `user_id INTEGER NOT NULL` with no
default (and `migrate_add_user_id` is never invoked by the application),
SQLite raises `sqlite3.IntegrityError` (NOT NULL constraint failed), and
the `except sqlite3.IntegrityError` clause re-raises it as
`ValueError("Category already exists.")`.  No row is ever inserted. -/
def Category.add (db : List CategoryRow) (name : String) :
    Except String (List CategoryRow) :=
  if name.isEmpty then
    Except.error "Category name must be a non-empty string."
  else
    Except.error "Category already exists."

/-- A row of the `Budget` table created by `init_db`:
`(id INTEGER PRIMARY KEY, month TEXT, amount REAL, user_id INTEGER)`. -/
structure BudgetRow where
  id : Nat
  month : String
  amount : ℚ
  user_id : Nat
deriving DecidableEq

/-- `Budget.set_monthly_budget(month, amount, user_id)`:
`SELECT id FROM Budget WHERE month = ? AND user_id = ?` (`fetchone`); if a
row was found, `UPDATE Budget SET amount = ? WHERE month = ? AND
user_id = ?`, else `INSERT INTO Budget (month, amount, user_id)` with the
autoincremented `fresh_id`. -/
def Budget.set_monthly_budget (db : List BudgetRow) (month : String)
    (amount : ℚ) (user_id : Nat) (fresh_id : Nat) : List BudgetRow :=
  match db.find? (fun b => b.month == month && b.user_id == user_id) with
  | some _ =>
    db.map (fun b =>
      if b.month == month && b.user_id == user_id then { b with amount := amount }
      else b)
  | none => db ++ [⟨fresh_id, month, amount, user_id⟩]

/-- `Budget.get_monthly_budget(month, user_id)`:
`SELECT amount FROM Budget WHERE month = ? AND user_id = ?` (`fetchone`);
returns the fetched amount, or `None` if no row matches. -/
def Budget.get_monthly_budget (db : List BudgetRow) (month : String)
    (user_id : Nat) : Option ℚ :=
  match db.find? (fun b => b.month == month && b.user_id == user_id) with
  | some row => some row.amount
  | none => none

/-- A row of the `RecurringPayments` table created by `init_db`:
`(id INTEGER PRIMARY KEY, name TEXT, amount REAL, due_date TEXT,
frequency TEXT, user_id INTEGER NOT NULL)`.  The `TEXT` due date is
represented by its parsed `Date` value: the code always writes it with
`strftime("%Y-%m-%d")` and reads it back with the matching `strptime`. -/
structure PaymentRow where
  id : Nat
  name : String
  amount : ℚ
  due_date : Date
  frequency : String
  user_id : Nat
deriving DecidableEq

/-- `RecurringPayment.get_all(user_id)`:
`SELECT ... FROM RecurringPayments WHERE user_id = ? ORDER BY due_date
ASC`; ascending BINARY-collation order on the zero-padded date strings is
ascending chronological order. -/
def RecurringPayment.get_all (db : List PaymentRow) (user_id : Nat) :
    List PaymentRow :=
  List.insertionSort (fun a b => a.due_date.toOrdinal ≤ b.due_date.toOrdinal)
    (db.filter (fun p => p.user_id == user_id))

/-- `RecurringPayment.mark_as_paid(payment_id, payment_date, user_id)`:
`SELECT frequency FROM RecurringPayments WHERE id = ? AND user_id = ?`
(`fetchone`); raise `ValueError` when no row matches; otherwise compute
`calculate_next_due_date(payment_date, frequency)` — which itself raises
`ValueError` when the target date is invalid — and
`UPDATE RecurringPayments SET due_date = ? WHERE id = ? AND user_id = ?`. -/
def RecurringPayment.mark_as_paid (db : List PaymentRow) (payment_id : Nat)
    (payment_date : Date) (user_id : Nat) : Except String (List PaymentRow) :=
  match db.find? (fun p => p.id == payment_id && p.user_id == user_id) with
  | none =>
    Except.error "Recurring payment not found or does not belong to the user."
  | some row =>
    match calculate_next_due_date payment_date row.frequency with
    | none => Except.error "ValueError: day is out of range for month"
    | some next_due_date =>
      Except.ok (db.map (fun p =>
        if p.id == payment_id && p.user_id == user_id then
          { p with due_date := next_due_date }
        else p))

/-- The informational pop-ups `gui.check_recurring_payments` can show for
a payment. -/
inductive Notification where
  | dueTomorrow (name : String) (amount : ℚ)
  | dueToday (name : String) (amount : ℚ)
deriving DecidableEq

/-- The loop body of `gui.check_recurring_payments`, over the payments of
the current user in `get_all` order.  For each payment it computes
`days_until_due = (due_date - today).days` and branches:
`== 1` → "due tomorrow" pop-up; `== 0` → "due today" pop-up; `< 0` →
`new_due_date = calculate_next_due_date(due_date, frequency)` (which can
raise `ValueError`) followed by
`RecurringPayment.update_due_date(payment_id, ...)`.  The class
`RecurringPayment` in models.py defines no attribute `update_due_date`,
so that call raises `AttributeError` (looked up before the arguments
matter), aborting the loop.  Returns the pop-ups already shown and the
exception, if one was raised — it is caught by the surrounding
`try/except`, which shows an error dialog. -/
def processPayments (today : Date) : List PaymentRow →
    List Notification × Option String
  | [] => ([], none)
  | p :: rest =>
    let days : Int := p.due_date.toOrdinal - today.toOrdinal
    if days = 1 then
      let r := processPayments today rest
      (Notification.dueTomorrow p.name p.amount :: r.1, r.2)
    else if days = 0 then
      let r := processPayments today rest
      (Notification.dueToday p.name p.amount :: r.1, r.2)
    else if days < 0 then
      match calculate_next_due_date p.due_date p.frequency with
      | none => ([], some "ValueError: day is out of range for month")
      | some _ =>
        ([], some "AttributeError: RecurringPayment has no attribute update_due_date")
    else
      processPayments today rest

/-- `gui.check_recurring_payments` for a logged-in user: scans
`RecurringPayment.get_all(current_user_id)` with `processPayments`.  The
third component is the `RecurringPayments` table after the pass: it is
returned unchanged, because the only write path of the scan is the
overdue branch, which fails before reaching the database. -/
def check_recurring_payments (payments : List PaymentRow) (today : Date)
    (current_user_id : Nat) :
    List Notification × Option String × List PaymentRow :=
  let r := processPayments today (RecurringPayment.get_all payments current_user_id)
  (r.1, r.2, payments)

/-- `gui.check_budget` for a logged-in user: looks up the budget for
`today.strftime("%Y-%m")`; when one is set, compares
`Expense.get_spending_since(start_of_month, user)` with it and shows the
"Budget Exceeded" pop-up exactly when `spending > budget_amount`.
Returns whether the pop-up was shown. -/
def check_budget (expenses : List ExpenseRow) (budgets : List BudgetRow)
    (today : Date) (current_user_id : Nat) : Bool :=
  match Budget.get_monthly_budget budgets (Date.monthStr today) current_user_id with
  | none => false
  | some budget_amount =>
    let start_of_month := Date.isoStr ⟨today.year, today.month, 1⟩
    let spending := Expense.get_spending_since expenses start_of_month current_user_id
    decide (budget_amount < spending)

/-- Every month has at least 28 days. -/
lemma daysInMonth_ge (y m : Nat) : 28 ≤ daysInMonth y m := by
  unfold daysInMonth
  split
  · split <;> omega
  · split <;> omega

/-- The `"Monthly"` computation always lands on a valid date when its
input is a valid date. -/
lemma monthly_mkDate (d : Date) (h : d.valid = true) :
    mkDate (d.year + d.month / 12) (d.month % 12 + 1) (min d.day 28) =
      some ⟨d.year + d.month / 12, d.month % 12 + 1, min d.day 28⟩ := by
  unfold Date.valid at h
  simp only [Bool.and_eq_true, decide_eq_true_eq] at h
  have h28 := daysInMonth_ge (d.year + d.month / 12) (d.month % 12 + 1)
  unfold mkDate
  rw [if_pos]
  unfold Date.valid
  simp only [Bool.and_eq_true, decide_eq_true_eq]
  omega

/-- A leap year is never followed by a leap year. -/
lemma isLeapYear_succ (y : Nat) (h : isLeapYear y = true) :
    isLeapYear (y + 1) = false := by
  unfold isLeapYear at h ⊢
  simp only [Bool.or_eq_true, Bool.and_eq_true, beq_iff_eq, bne_iff_ne, ne_eq] at h
  simp only [Bool.or_eq_false_iff, Bool.and_eq_false_iff, beq_eq_false_iff_ne, ne_eq,
    bne_eq_false_iff_eq]
  omega

/-- C1: For every calendar date `d`, `calculate_next_due_date(d, "Monthly")`
returns the date in the next calendar month with day `min(day of d, 28)`,
and the year increments exactly when the month of `d` is December; in
particular Monthly(2024-01-31) = 2024-02-28 and
Monthly(2024-01-30) = 2024-02-28. -/
theorem claim_C1_monthly_rollover (d : Date) (h : d.valid = true) :
    (calculate_next_due_date d "Monthly" =
      some ⟨d.year + (if d.month = 12 then 1 else 0),
            (if d.month = 12 then 1 else d.month + 1),
            min d.day 28⟩) ∧
    calculate_next_due_date ⟨2024, 1, 31⟩ "Monthly" = some ⟨2024, 2, 28⟩ ∧
    calculate_next_due_date ⟨2024, 1, 30⟩ "Monthly" = some ⟨2024, 2, 28⟩ := by
  refine ⟨?_, by decide, by decide⟩
  have hv := h
  unfold Date.valid at hv
  simp only [Bool.and_eq_true, decide_eq_true_eq] at hv
  have e1 : d.month / 12 = if d.month = 12 then 1 else 0 := by
    split <;> omega
  have e2 : d.month % 12 + 1 = if d.month = 12 then 1 else d.month + 1 := by
    split <;> omega
  unfold calculate_next_due_date
  rw [show ("Monthly" == "Weekly") = false from rfl,
      show ("Monthly" == "Monthly") = true from rfl]
  simp only [Bool.false_eq_true, if_false, if_true]
  rw [monthly_mkDate d h, e1, e2]

/-- Witness for C1 at the concrete date 2024-05-15. -/
theorem claim_C1_monthly_rollover_witness :
    Date.valid ⟨2024, 5, 15⟩ = true ∧
    calculate_next_due_date ⟨2024, 5, 15⟩ "Monthly" = some ⟨2024, 6, 15⟩ := by
  refine ⟨by decide, ?_⟩
  have h := (claim_C1_monthly_rollover ⟨2024, 5, 15⟩ (by decide)).1
  simpa using h

/-- Counterexample to C3 as stated: on the valid date 2024-02-29 the
`"Yearly"` branch constructs `datetime(2025, 2, 29)`, which raises
`ValueError` (embedded as `none`) instead of returning 2025-02-29. -/
theorem claim_C3_counterexample :
    Date.valid ⟨2024, 2, 29⟩ = true ∧
    calculate_next_due_date ⟨2024, 2, 29⟩ "Yearly" = none := by decide

/-- C3 (amended): For every calendar date `d`,
`calculate_next_due_date(d, "Yearly")` returns the date with the same
month and day and year + 1 whenever `d` is not February 29; on
February 29 of a leap year the `datetime` construction fails with
`ValueError` (the year after a leap year is never a leap year), so no
date is returned. -/
theorem claim_C3_yearly_rollover (d : Date) (h : d.valid = true) :
    calculate_next_due_date d "Yearly" =
      if d.month = 2 ∧ d.day = 29 then none
      else some ⟨d.year + 1, d.month, d.day⟩ := by
  have hv := h
  unfold Date.valid at hv
  simp only [Bool.and_eq_true, decide_eq_true_eq] at hv
  unfold calculate_next_due_date
  rw [show ("Yearly" == "Weekly") = false from rfl,
      show ("Yearly" == "Monthly") = false from rfl,
      show ("Yearly" == "Yearly") = true from rfl]
  simp only [Bool.false_eq_true, if_false, if_true]
  by_cases hc : d.month = 2 ∧ d.day = 29
  · rw [if_pos hc]
    obtain ⟨hm, hd⟩ := hc
    have hleap : isLeapYear d.year = true := by
      unfold daysInMonth at hv
      rw [hm] at hv
      simp only [beq_self_eq_true, if_true] at hv
      by_contra hfalse
      rw [Bool.not_eq_true] at hfalse
      rw [hfalse] at hv
      simp only [Bool.false_eq_true, if_false] at hv
      omega
    have hnot := isLeapYear_succ d.year hleap
    unfold mkDate Date.valid daysInMonth
    rw [if_neg]
    simp only [hm, hd, beq_self_eq_true, if_true, hnot, Bool.false_eq_true,
      if_false, Bool.and_eq_true, decide_eq_true_eq, not_and]
    omega
  · rw [if_neg hc]
    unfold mkDate
    rw [if_pos]
    unfold Date.valid
    simp only [Bool.and_eq_true, decide_eq_true_eq]
    refine ⟨⟨⟨by omega, by omega⟩, by omega⟩, ?_⟩
    unfold daysInMonth at hv ⊢
    by_cases hm : d.month = 2
    · rw [hm] at hv ⊢
      simp only [beq_self_eq_true, if_true] at hv ⊢
      have : d.day ≠ 29 := fun hd => hc ⟨hm, hd⟩
      split <;> split at hv <;> omega
    · have hm2 : (d.month == 2) = false := by simp [hm]
      rw [hm2] at hv ⊢
      simp only [Bool.false_eq_true, if_false] at hv ⊢
      exact hv.2

/-- Witness for C3 (amended) at the concrete date 2024-02-29. -/
theorem claim_C3_yearly_rollover_witness :
    Date.valid ⟨2024, 2, 29⟩ = true ∧
    calculate_next_due_date ⟨2024, 2, 29⟩ "Yearly" =
      (if (2 : Nat) = 2 ∧ (29 : Nat) = 29 then none
       else some ⟨2024 + 1, 2, 29⟩) :=
  ⟨by decide, claim_C3_yearly_rollover ⟨2024, 2, 29⟩ (by decide)⟩

/-- C9: For every date and every frequency string other than `"Weekly"`,
`"Monthly"` and `"Yearly"`, `calculate_next_due_date` behaves exactly
like the `"Monthly"` branch. -/
theorem claim_C9_default_monthly (d : Date) (f : String)
    (h1 : f ≠ "Weekly") (h2 : f ≠ "Monthly") (h3 : f ≠ "Yearly") :
    calculate_next_due_date d f = calculate_next_due_date d "Monthly" := by
  unfold calculate_next_due_date
  rw [show ("Monthly" == "Weekly") = false from rfl,
      show ("Monthly" == "Monthly") = true from rfl]
  have e1 : (f == "Weekly") = false := by simp [h1]
  have e2 : (f == "Monthly") = false := by simp [h2]
  have e3 : (f == "Yearly") = false := by simp [h3]
  rw [e1, e2, e3]
  simp only [Bool.false_eq_true, if_false, if_true]

/-- Witness for C9 with the unrecognized frequency `"Daily"`. -/
theorem claim_C9_default_monthly_witness :
    calculate_next_due_date ⟨2024, 1, 31⟩ "Daily" =
      calculate_next_due_date ⟨2024, 1, 31⟩ "Monthly" :=
  claim_C9_default_monthly ⟨2024, 1, 31⟩ "Daily"
    (by decide) (by decide) (by decide)

/-- C8: For every start date `s` and user `u`, `get_spending_since(s, u)`
returns the sum of the amounts of exactly those of `u`'s expenses whose
date is `≥ s` (SQL TEXT comparison), and returns 0 — never `NULL` or
absent — when no expense of `u` has date `≥ s` (the empty sum is 0, and
the return type is a plain number). -/
theorem claim_C8_spending_since (db : List ExpenseRow) (s : String) (u : Nat) :
    Expense.get_spending_since db s u =
      ((db.filter (fun e => strLe s e.date && e.user_id == u)).map
        (fun e => e.amount)).sum ∧
    (db.filter (fun e => strLe s e.date && e.user_id == u) = [] →
      Expense.get_spending_since db s u = 0) := by
  have hmain : Expense.get_spending_since db s u =
      ((db.filter (fun e => strLe s e.date && e.user_id == u)).map
        (fun e => e.amount)).sum := by
    simp only [Expense.get_spending_since]
    by_cases he :
        (db.filter (fun e => strLe s e.date && e.user_id == u)).isEmpty
    · rw [if_pos he]
      rw [List.isEmpty_iff] at he
      rw [he]
      simp
    · rw [if_neg he]
      by_cases hz :
          ((db.filter (fun e => strLe s e.date && e.user_id == u)).map
            (fun e => e.amount)).sum = 0
      · simp [hz]
      · simp [hz]
  refine ⟨hmain, fun hnil => ?_⟩
  rw [hmain, hnil]
  simp

/-- Witness for C8 on a concrete store with no matching rows. -/
theorem claim_C8_spending_since_witness :
    Expense.get_spending_since
        [⟨1, "2024-01-05", "Food", 10, 1⟩] "2024-02-01" 1 = 0 :=
  (claim_C8_spending_since [⟨1, "2024-01-05", "Food", 10, 1⟩]
    "2024-02-01" 1).2 (by decide)

/-- C4 fails on the code: `Category.add` never stores a row.  It takes no
`user_id`, and its `INSERT` supplies none for the NOT NULL `user_id`
column of the `init_db` schema, so for every non-empty name SQLite raises
`IntegrityError` — there is no uniqueness constraint on `Categories` at
all — and the method converts it to `ValueError("Category already
exists.")`.  Empty names do fail with the empty-name error as claimed. -/
theorem claim_C4_category_add (db : List CategoryRow) (name : String) :
    (name = "" → Category.add db name =
      Except.error "Category name must be a non-empty string.") ∧
    (name ≠ "" → Category.add db name =
      Except.error "Category already exists.") ∧
    ∀ db2, Category.add db name ≠ Except.ok db2 := by
  refine ⟨fun h => ?_, fun h => ?_, fun db2 => ?_⟩
  · subst h
    rfl
  · rw [Category.add, if_neg]
    simpa [String.isEmpty_iff] using h
  · rw [Category.add]
    split <;> simp

/-- Witness for C4: adding the non-empty name "Food" to an empty store
fails with the duplicate-category error and stores nothing. -/
theorem claim_C4_category_add_witness :
    Category.add ([] : List CategoryRow) "Food" =
      Except.error "Category already exists." :=
  (claim_C4_category_add [] "Food").2.1 (by decide)

/-- After one `set_monthly_budget`, the store holds exactly one row for
`(month, user)` and `get_monthly_budget` returns the amount just set —
provided the store did not already hold duplicate rows for the pair
(a state the API cannot produce). -/
lemma budget_set_count (db : List BudgetRow) (m : String) (a : ℚ)
    (u fid : Nat)
    (h : (db.filter (fun b => b.month == m && b.user_id == u)).length ≤ 1) :
    ((Budget.set_monthly_budget db m a u fid).filter
        (fun b => b.month == m && b.user_id == u)).length = 1 ∧
    Budget.get_monthly_budget (Budget.set_monthly_budget db m a u fid) m u =
      some a := by
  unfold Budget.set_monthly_budget Budget.get_monthly_budget
  cases hfind : db.find? (fun b => b.month == m && b.user_id == u) with
  | none =>
    have hnil : db.filter (fun b => b.month == m && b.user_id == u) = [] := by
      rw [List.filter_eq_nil_iff]
      intro x hx
      exact List.find?_eq_none.mp hfind x hx
    constructor
    · rw [List.filter_append, hnil]
      simp
    · rw [List.find?_append, hfind]
      simp
  | some b0 =>
    have hb0 := List.find?_some hfind
    have hcomp : ∀ x : BudgetRow,
        ((fun b => b.month == m && b.user_id == u)
          (if x.month == m && x.user_id == u then { x with amount := a }
           else x)) =
        ((fun b => b.month == m && b.user_id == u) x) := by
      intro x
      by_cases hx : (x.month == m && x.user_id == u) = true
      · rw [if_pos hx]
      · rw [if_neg hx]
    have hfun : ((fun b : BudgetRow => b.month == m && b.user_id == u) ∘
        (fun x : BudgetRow => if x.month == m && x.user_id == u then
          { x with amount := a } else x)) =
        (fun b : BudgetRow => b.month == m && b.user_id == u) :=
      funext (fun x => hcomp x)
    constructor
    · rw [List.filter_map, hfun, List.length_map]
      have hmem : b0 ∈ db.filter (fun b => b.month == m && b.user_id == u) :=
        List.mem_filter.mpr ⟨List.mem_of_find?_eq_some hfind, hb0⟩
      have hpos := List.length_pos.mpr (List.ne_nil_of_mem hmem)
      omega
    · rw [List.find?_map, hfun, hfind]
      simp only [Option.map_some']
      rw [if_pos hb0]

/-- C6: setting the monthly budget twice for the same `(month, user)`
pair leaves exactly one matching row, and `get_monthly_budget` then
returns the second amount — the second set overwrites instead of
inserting a duplicate. -/
theorem claim_C6_budget_upsert (db : List BudgetRow) (m : String) (u : Nat)
    (a1 a2 : ℚ) (id1 id2 : Nat) (ha1 : 0 < a1) (ha2 : 0 < a2)
    (h : (db.filter (fun b => b.month == m && b.user_id == u)).length ≤ 1) :
    ((Budget.set_monthly_budget
        (Budget.set_monthly_budget db m a1 u id1) m a2 u id2).filter
        (fun b => b.month == m && b.user_id == u)).length = 1 ∧
    Budget.get_monthly_budget
      (Budget.set_monthly_budget
        (Budget.set_monthly_budget db m a1 u id1) m a2 u id2) m u =
      some a2 := by
  have h1 := budget_set_count db m a1 u id1 h
  exact budget_set_count _ m a2 u id2 (le_of_eq h1.1)

/-- Witness for C6: set 500 then 700 for "2025-01" on an empty store;
one row remains and the budget reads 700. -/
theorem claim_C6_budget_upsert_witness :
    ((Budget.set_monthly_budget
        (Budget.set_monthly_budget [] "2025-01" 500 1 1) "2025-01" 700 1 2).filter
        (fun b => b.month == "2025-01" && b.user_id == 1)).length = 1 ∧
    Budget.get_monthly_budget
      (Budget.set_monthly_budget
        (Budget.set_monthly_budget [] "2025-01" 500 1 1) "2025-01" 700 1 2)
      "2025-01" 1 = some 700 :=
  claim_C6_budget_upsert [] "2025-01" 1 500 700 1 2
    (by norm_num) (by norm_num) (by decide)

/-- C7: when a budget `b` is set for the current month, `check_budget`
shows the budget-exceeded pop-up if and only if the current-month
spending (spending since day 1 of the month) is strictly greater than
`b`; spending exactly equal to `b` does not alert. -/
theorem claim_C7_budget_threshold (expenses : List ExpenseRow)
    (budgets : List BudgetRow) (today : Date) (u : Nat) (b : ℚ)
    (hb : Budget.get_monthly_budget budgets (Date.monthStr today) u = some b) :
    (check_budget expenses budgets today u = true ↔
      b < Expense.get_spending_since expenses
        (Date.isoStr ⟨today.year, today.month, 1⟩) u) ∧
    (Expense.get_spending_since expenses
        (Date.isoStr ⟨today.year, today.month, 1⟩) u = b →
      check_budget expenses budgets today u = false) := by
  unfold check_budget
  rw [hb]
  refine ⟨by simp, fun he => by simp [he]⟩

/-- Witness for C7: budget 100 for 2024-06, no expenses; spending 0 does
not exceed the budget and no pop-up is shown. -/
theorem claim_C7_budget_threshold_witness :
    check_budget [] [⟨1, "2024-06", 100, 1⟩] ⟨2024, 6, 15⟩ 1 = false := by
  have h := (claim_C7_budget_threshold [] [⟨1, "2024-06", 100, 1⟩]
    ⟨2024, 6, 15⟩ 1 100 rfl).1
  have hspend : ∀ s : String, Expense.get_spending_since [] s 1 = 0 :=
    fun s => rfl
  rw [hspend] at h
  have hnot : ¬ ((100 : ℚ) < 0) := by norm_num
  cases hch : check_budget [] [⟨1, "2024-06", 100, 1⟩] ⟨2024, 6, 15⟩ 1 with
  | false => rfl
  | true => exact absurd (h.mp hch) hnot

/-- C5: an expense id owned by user A is invisible to `get_all` for
user B, `update` and `delete` by B on it fail with the
not-found-or-forbidden error (returning no new store, so nothing is
modified), and `update`/`delete` succeed only when a row with that id AND
that user_id exists. -/
theorem claim_C5_ownership_isolation (db : List ExpenseRow) (eid A B : Nat)
    (hAB : A ≠ B)
    (hA : ∀ r ∈ db, r.id = eid → r.user_id = A) :
    (∀ r ∈ Expense.get_all db B, r.id ≠ eid) ∧
    (∀ nd nc na, Expense.update db eid nd nc na B =
      Except.error "Expense not found or does not belong to the user.") ∧
    (Expense.delete db eid B =
      Except.error "Expense not found or does not belong to the user.") ∧
    (∀ v nd nc na db2, Expense.update db eid nd nc na v = Except.ok db2 →
      ∃ r ∈ db, r.id = eid ∧ r.user_id = v) ∧
    (∀ v db2, Expense.delete db eid v = Except.ok db2 →
      ∃ r ∈ db, r.id = eid ∧ r.user_id = v) := by
  have hfind : db.find? (fun e => e.id == eid && e.user_id == B) = none := by
    rw [List.find?_eq_none]
    intro x hx hpx
    simp only [Bool.and_eq_true, beq_iff_eq] at hpx
    exact hAB ((hA x hx hpx.1).symm.trans hpx.2)
  refine ⟨?_, ?_, ?_, ?_, ?_⟩
  · intro r hr hre
    have hr2 : r ∈ db.filter (fun e => e.user_id == B) :=
      (List.mem_insertionSort _).mp hr
    have hparts := List.mem_filter.mp hr2
    exact hAB ((hA r hparts.1 hre).symm.trans (by simpa using hparts.2))
  · intro nd nc na
    unfold Expense.update
    rw [hfind]
  · unfold Expense.delete
    rw [hfind]
  · intro v nd nc na db2 hok
    unfold Expense.update at hok
    cases hf : db.find? (fun e => e.id == eid && e.user_id == v) with
    | none =>
      rw [hf] at hok
      exact Except.noConfusion hok
    | some r =>
      have hm := List.mem_of_find?_eq_some hf
      have hp := List.find?_some hf
      simp only [Bool.and_eq_true, beq_iff_eq] at hp
      exact ⟨r, hm, hp⟩
  · intro v db2 hok
    unfold Expense.delete at hok
    cases hf : db.find? (fun e => e.id == eid && e.user_id == v) with
    | none =>
      rw [hf] at hok
      exact Except.noConfusion hok
    | some r =>
      have hm := List.mem_of_find?_eq_some hf
      have hp := List.find?_some hf
      simp only [Bool.and_eq_true, beq_iff_eq] at hp
      exact ⟨r, hm, hp⟩

/-- Witness for C5 on a one-expense store owned by user 1, accessed by
user 2. -/
theorem claim_C5_ownership_isolation_witness :
    (∀ r ∈ Expense.get_all [⟨1, "2024-01-01", "Food", 10, 1⟩] 2, r.id ≠ 1) ∧
    Expense.update [⟨1, "2024-01-01", "Food", 10, 1⟩] 1 "2024-01-02" "X" 5 2 =
      Except.error "Expense not found or does not belong to the user." ∧
    Expense.delete [⟨1, "2024-01-01", "Food", 10, 1⟩] 1 2 =
      Except.error "Expense not found or does not belong to the user." := by
  have h := claim_C5_ownership_isolation [⟨1, "2024-01-01", "Food", 10, 1⟩]
    1 1 2 (by decide) (by decide)
  exact ⟨h.1, h.2.1 "2024-01-02" "X" 5, h.2.2.1⟩

/-- C10: `mark_as_paid` recomputes the due date from the caller-supplied
payment date (not from the stored due date) with the stored frequency,
stores it, and leaves every other field of every row — and every
non-matching row entirely — unchanged. -/
theorem claim_C10_mark_as_paid (db : List PaymentRow) (pid : Nat) (pd : Date)
    (v : Nat) (row : PaymentRow) (f : String) (nd : Date)
    (hfind : db.find? (fun p => p.id == pid && p.user_id == v) = some row)
    (hf : row.frequency = f)
    (hcalc : calculate_next_due_date pd f = some nd) :
    ∃ db2, RecurringPayment.mark_as_paid db pid pd v = Except.ok db2 ∧
      db2.length = db.length ∧
      ∀ q ∈ db.zip db2,
        q.2.name = q.1.name ∧ q.2.amount = q.1.amount ∧
        q.2.frequency = q.1.frequency ∧ q.2.user_id = q.1.user_id ∧
        q.2.due_date =
          (if q.1.id = pid ∧ q.1.user_id = v then nd else q.1.due_date) := by
  refine ⟨db.map (fun p => if p.id == pid && p.user_id == v then
      { p with due_date := nd } else p), ?_, by simp, ?_⟩
  · simp only [RecurringPayment.mark_as_paid, hfind, hf, hcalc]
  · intro q hq
    have hzip := List.zip_map' (fun x : PaymentRow => x)
      (fun p : PaymentRow => if p.id == pid && p.user_id == v then
        { p with due_date := nd } else p) db
    simp only [List.map_id'] at hzip
    rw [hzip] at hq
    obtain ⟨x, hx, rfl⟩ := List.mem_map.mp hq
    by_cases hbx : (x.id == pid && x.user_id == v) = true
    · have hprop : x.id = pid ∧ x.user_id = v := by simpa using hbx
      simp [hbx, hprop]
    · have hprop : ¬(x.id = pid ∧ x.user_id = v) := by
        simpa using hbx
      simp [hbx, hprop]

/-- Witness for C10: marking the only payment (Monthly, owned by user 1)
paid on 2024-06-03. -/
theorem claim_C10_mark_as_paid_witness :
    ∃ db2, RecurringPayment.mark_as_paid
        [⟨1, "Rent", 100, ⟨2024, 6, 1⟩, "Monthly", 1⟩] 1 ⟨2024, 6, 3⟩ 1 =
        Except.ok db2 ∧
      db2.length = ([⟨1, "Rent", 100, ⟨2024, 6, 1⟩, "Monthly", 1⟩] :
        List PaymentRow).length ∧
      ∀ q ∈ ([⟨1, "Rent", 100, ⟨2024, 6, 1⟩, "Monthly", 1⟩] :
          List PaymentRow).zip db2,
        q.2.name = q.1.name ∧ q.2.amount = q.1.amount ∧
        q.2.frequency = q.1.frequency ∧ q.2.user_id = q.1.user_id ∧
        q.2.due_date =
          (if q.1.id = 1 ∧ q.1.user_id = 1 then (⟨2024, 7, 3⟩ : Date)
           else q.1.due_date) :=
  claim_C10_mark_as_paid [⟨1, "Rent", 100, ⟨2024, 6, 1⟩, "Monthly", 1⟩]
    1 ⟨2024, 6, 3⟩ 1 ⟨1, "Rent", 100, ⟨2024, 6, 1⟩, "Monthly", 1⟩
    "Monthly" ⟨2024, 7, 3⟩ rfl rfl (by decide)

/-- C2 fails on the code: for an overdue payment the scan computes the
rolled-over date but then calls `RecurringPayment.update_due_date`, a
method models.py never defines, so Python raises `AttributeError`; the
`except` clause catches it and shows an error dialog.  The stored
due_date is NOT advanced, nothing is persisted, and — as the claim does
correctly say — no due-today/due-tomorrow pop-up is emitted for that
payment.  Evaluated here at a payment due 2024-06-14 scanned on
2024-06-15. -/
theorem claim_C2_overdue_scan_aborts :
    check_recurring_payments
        [⟨1, "Rent", 100, ⟨2024, 6, 14⟩, "Monthly", 1⟩] ⟨2024, 6, 15⟩ 1 =
      ([],
       some "AttributeError: RecurringPayment has no attribute update_due_date",
       [⟨1, "Rent", 100, ⟨2024, 6, 14⟩, "Monthly", 1⟩]) := by decide
